import Mathlib

/-!
Verification of the gx-poc data-profiling scripts.

We shallowly embed the heuristic profiler `profile_data.py` (statistics
record, per-column rule synthesis, row-count rule, suite create-or-replace
logic, per-table driver loop) and the validator summary logic of
`run_validation.py`, and prove the documented properties about them.

Python floats are modelled as exact rationals (the constants 0.1, 0.8, 1.2
become the exact rationals 1/10, 8/10, 12/10); Python ints as Nat/Int;
nullable SQL aggregates as Option.
-/

namespace GxPoc

/-- Python `round(x, 4)`: round to 4 decimal places, modelled on exact
rationals. Lean's `round` resolves ties upward while Python resolves the
(binary-float) ties to even; no statement below sits on a tie. -/
def round4 (q : ℚ) : ℚ := (round (q * 10000) : ℚ) / 10000

/-- Python `int(x)`: truncation toward zero. -/
def pyint (q : ℚ) : ℤ := if 0 ≤ q then ⌊q⌋ else -⌊-q⌋

/-- Python `str.lower()`, character-wise (the column and message strings
involved are ASCII). -/
def lowerStr (s : String) : String := ⟨s.data.map Char.toLower⟩

/-- Haystack-recursive substring test on character lists: does `needle`
occur contiguously in the second argument? -/
def charsContain (needle : List Char) : List Char → Bool
  | [] => needle.isEmpty
  | c :: rest => needle.isPrefixOf (c :: rest) || charsContain needle rest

/-- Python `needle in hay` on strings. -/
def strContainsSub (needle hay : String) : Bool :=
  charsContain needle.data hay.data

/-- The key-name heuristic of profile_data.py line 141:
`"_id" in col.lower() or col.lower().endswith("id")`. -/
def looksLikeId (col : String) : Bool :=
  strContainsSub "_id" (lowerStr col) || "id".data.isSuffixOf (lowerStr col).data

/-- A generated expectation ("rule"). The four kinds emitted by
`generate_expectations_from_stats`. -/
inductive Rule : Type
  | notNull (column : String)
  | between (column : String) (lo hi : ℚ)
  | unique (column : String)
  | rowCountBetween (lo hi : ℤ)
  deriving DecidableEq, Repr

/-- One column-statistics record as built by `get_column_stats`
(profile_data.py lines 46-92). Non-numeric records carry no min/max/avg
key in the Python dict, and the numeric aggregates of an empty table are
SQL NULL; both are `none` here (Python `stat.get` returns None for a
missing key). `total_count` (`COUNT(*)`) and `distinct_count` are always
integers; `null_count` (a `SUM`) is NULL on an empty table. -/
structure ColumnStat : Type where
  column : String
  data_type : String
  is_nullable : Bool
  is_numeric : Bool
  min : Option ℚ
  max : Option ℚ
  avg : Option ℚ
  total_count : ℕ
  null_count : Option ℕ
  distinct_count : ℕ
  deriving DecidableEq, Repr

/-- Section 1 of the loop body of `generate_expectations_from_stats`
(profile_data.py lines 104-112): a not-null rule when the observed null
count equals 0. A record with a NULL null count (`none`) fails the
Python test `stat["null_count"] == 0` just as it fails `some 0 = ...`. -/
def notNullPart (stat : ColumnStat) : List Rule :=
  if stat.null_count = some 0 then [Rule.notNull stat.column] else []

/-- Section 2 of the loop body (profile_data.py lines 114-136): the range
rule with margin, guarded by `stat.get("is_numeric") and stat.get("min")
is not None`. `get_column_stats` never produces a record with a min but
no max (`MIN` of a column is SQL NULL exactly when its `MAX` is); on such
a record the Python code would raise an uncaught TypeError at line 120
and emit nothing, which is how the catch-all arm behaves here. -/
def rangePart (stat : ColumnStat) : List Rule :=
  match stat.is_numeric, stat.min, stat.max with
  | true, some min_val, some max_val =>
    let range_size : ℚ :=
      if max_val ≠ min_val then max_val - min_val else |max_val| * (1/10)
    let margin : ℚ := range_size * (1/10)
    [Rule.between stat.column (round4 (min_val - margin)) (round4 (max_val + margin))]
  | _, _, _ => []

/-- Section 3 of the loop body (profile_data.py lines 138-148): the
uniqueness rule when distinct count equals a positive total count and the
column name passes the key-name heuristic. -/
def uniquePart (stat : ColumnStat) : List Rule :=
  if stat.distinct_count = stat.total_count ∧ 0 < stat.total_count then
    (if looksLikeId stat.column then [Rule.unique stat.column] else [])
  else []

/-- The rules emitted for one column record by the loop body of
`generate_expectations_from_stats` (profile_data.py lines 101-148). -/
def colRules (stat : ColumnStat) : List Rule :=
  notNullPart stat ++ rangePart stat ++ uniquePart stat

/-- The table row-count rule (profile_data.py lines 150-165): emitted when
the statistics list is non-empty and the first record's total count is
truthy (nonzero), with bounds `int(count * 0.8)` and `int(count * 1.2)`. -/
def rowCountPart : List ColumnStat → List Rule
  | [] => []
  | s0 :: _ =>
    if s0.total_count ≠ 0 then
      [Rule.rowCountBetween (pyint ((s0.total_count : ℚ) * (8/10)))
                            (pyint ((s0.total_count : ℚ) * (12/10)))]
    else []

/-- `generate_expectations_from_stats` (profile_data.py lines 97-167),
viewed as the list of rules added to the (initially empty) suite: the
per-column rules in column order followed by the row-count rule. The
`try/except` around each `suite.add_expectation` call swallows framework
errors; the suite being freshly created, the adds succeed, so the model
appends unconditionally. -/
def generate_expectations_from_stats (stats : List ColumnStat) : List Rule :=
  stats.flatMap colRules ++ rowCountPart stats

/-- Recogniser for range rules. -/
def isRangeRule : Rule → Bool
  | .between _ _ _ => true
  | _ => false

/-- Recogniser for row-count rules. -/
def isRowCountRule : Rule → Bool
  | .rowCountBetween _ _ => true
  | _ => false

/-! ## Suite store and the create-or-replace flow of `auto_profile_table` -/

/-- The named rule collections persisted by the framework context:
an association list from suite name to that suite's rules. -/
abbrev SuiteStore := List (String × List Rule)

/-- The names of the suites held in a store. -/
def storeNames (st : SuiteStore) : List String := st.map Prod.fst

/-- The rules of the first suite of the given name, if any. -/
def storeLookup (st : SuiteStore) (name : String) : Option (List Rule) :=
  (st.find? (fun p => p.1 == name)).map Prod.snd

/-- How many suites of the given name a store holds. -/
def countName (st : SuiteStore) (name : String) : ℕ :=
  st.countP (fun p => p.1 == name)

/-- Modelled from the spec: the message of the duplicate-name error raised
by the external framework's `context.suites.add`; the spec fixes only that
it contains "already exists". -/
def suiteExistsMsg (name : String) : String :=
  ⟨name.data ++ " already exists".data⟩

/-- Modelled from the spec: the external framework's `context.suites.add` —
it fails on a name collision with a message containing "already exists",
and otherwise persists an empty suite under the given name. -/
def suitesAdd (st : SuiteStore) (name : String) : Except String SuiteStore :=
  if name ∈ storeNames st then Except.error (suiteExistsMsg name)
  else Except.ok (st ++ [(name, [])])

/-- Modelled from the spec: the external framework's `context.suites.delete`
removes the suite(s) of the given name. -/
def suitesDelete (st : SuiteStore) (name : String) : SuiteStore :=
  st.filter (fun p => !(p.1 == name))

/-- The suite-creation block of `auto_profile_table` (profile_data.py lines
195-203), generic in the framework's add primitive so that its failure
behaviour can be quantified over: on an error whose lowered message
contains "already exists", delete the suite of that name and add again;
any other error is re-raised. -/
def createSuiteWith (add : SuiteStore → String → Except String SuiteStore)
    (st : SuiteStore) (suite_name : String) : Except String SuiteStore :=
  match add st suite_name with
  | Except.ok st1 => Except.ok st1
  | Except.error e =>
    if strContainsSub "already exists" (lowerStr e) then
      add (suitesDelete st suite_name) suite_name
    else Except.error e

/-- The suite-creation block instantiated with the modelled framework. -/
def createSuite (st : SuiteStore) (suite_name : String) : Except String SuiteStore :=
  createSuiteWith suitesAdd st suite_name

/-- Replace the rules stored under a name (the effect of the
`suite.add_expectation` calls on the store once profiling of the table
finishes). -/
def storeSetRules (st : SuiteStore) (name : String) (rules : List Rule) : SuiteStore :=
  st.map (fun p => if p.1 == name then (p.1, rules) else p)

/-- The statistics-display loop of `auto_profile_table` (profile_data.py
lines 182-191) raises a TypeError exactly when some record with the
numeric flag set carries a NULL min or max: `stat['min']` and
`stat['max']` are formatted with `:.2f`, which None does not support.
`get_column_stats` produces such records for every numeric column of a
zero-row (or all-NULL) table, so this path is reachable. -/
def displayCrashes (stats : List ColumnStat) : Bool :=
  stats.any (fun stat => stat.is_numeric && (stat.min.isNone || stat.max.isNone))

/-- The message of the TypeError raised at profile_data.py line 186. -/
def noneFormatMsg : String :=
  "unsupported format string passed to NoneType.__format__"

/-- `auto_profile_table` (profile_data.py lines 170-214) acting on the
store: print the discovered statistics — which raises, touching nothing,
when a numeric record has a NULL aggregate (line 186) — then create (or
replace) the named suite, then fill it with the rules generated from the
column statistics. -/
def auto_profile_table (st : SuiteStore) (suite_name : String)
    (stats : List ColumnStat) : Except String SuiteStore :=
  if displayCrashes stats then Except.error noneFormatMsg
  else
    match createSuite st suite_name with
    | Except.error e => Except.error e
    | Except.ok st1 =>
      Except.ok (storeSetRules st1 suite_name (generate_expectations_from_stats stats))

/-- The per-table loop of the profiler's `main` (profile_data.py lines
240-247), generic in the per-table body: an error for one table is caught
(logged) and the loop continues with the next table. -/
def profileTablesWith
    (f : SuiteStore → String → List ColumnStat → Except String SuiteStore) :
    SuiteStore → List (String × List ColumnStat) → SuiteStore
  | st, [] => st
  | st, (suite_name, stats) :: rest =>
    match f st suite_name stats with
    | Except.ok st1 => profileTablesWith f st1 rest
    | Except.error _ => profileTablesWith f st rest

/-- The per-table loop instantiated with `auto_profile_table`. -/
def profileTables (st : SuiteStore) (tables : List (String × List ColumnStat)) :
    SuiteStore :=
  profileTablesWith auto_profile_table st tables

/-! ## Validator summary (`run_validation.py`) -/

/-- The recorded outcome of one validation triple: `run_validation`
returns the result's success flag, and `None` when an exception occurred
(run_validation.py lines 57-59); the loop in `main` also records `None`
when its own `except` branch fires (lines 85-87). -/
def recordOutcome : Except String Bool → Option Bool
  | Except.ok b => some b
  | Except.error _ => none

/-- `sum(1 for _, _, s in results if s is True)` (run_validation.py line 94). -/
def countPassed (results : List (Option Bool)) : ℕ :=
  results.countP (fun s => s == some true)

/-- `sum(1 for _, _, s in results if s is False)` (run_validation.py line 95). -/
def countFailed (results : List (Option Bool)) : ℕ :=
  results.countP (fun s => s == some false)

/-- `sum(1 for _, _, s in results if s is None)` (run_validation.py line 96). -/
def countSkipped (results : List (Option Bool)) : ℕ :=
  results.countP (fun s => s == none)

/-- The validator's exit code (run_validation.py lines 106-107):
`exit(1)` when any triple failed, otherwise the implicit 0. -/
def validatorExitCode (results : List (Option Bool)) : ℕ :=
  if 0 < countFailed results then 1 else 0

/-- Force the declared-nullability flag to a fixed value, leaving every
observed statistic alone. -/
def setNullableFalse (s : ColumnStat) : ColumnStat := { s with is_nullable := false }

/-! ## Concrete records used in counterexamples and witnesses -/

/-- A numeric column observed constant: min = max = 100. -/
def stat100 : ColumnStat :=
  { column := "c", data_type := "numeric", is_nullable := true,
    is_numeric := true, min := some 100, max := some 100, avg := some 100,
    total_count := 5, null_count := some 1, distinct_count := 1 }

/-- The `i_price`-style column of the spec's end-to-end scenario,
restricted to the fields the range rule reads. -/
def statIPrice : ColumnStat :=
  { column := "i_price", data_type := "numeric", is_nullable := false,
    is_numeric := true, min := some 1, max := some 100, avg := some 50,
    total_count := 100000, null_count := some 0, distinct_count := 9900 }

/-- A key-named column with distinct count equal to a positive total. -/
def statOlId : ColumnStat :=
  { column := "ol_o_id", data_type := "integer", is_nullable := false,
    is_numeric := false, min := none, max := none, avg := none,
    total_count := 1000, null_count := some 0, distinct_count := 1000 }

/-- A non-key-named column with distinct count equal to the total. -/
def statOlAmount (n : ℕ) : ColumnStat :=
  { column := "ol_amount", data_type := "numeric", is_nullable := true,
    is_numeric := false, min := none, max := none, avg := none,
    total_count := n, null_count := some n, distinct_count := n }

/-- A record as produced for any column of a zero-row table: null
aggregates and a zero total. -/
def statEmptyTable : ColumnStat :=
  { column := "w_id", data_type := "integer", is_nullable := false,
    is_numeric := true, min := none, max := none, avg := none,
    total_count := 0, null_count := none, distinct_count := 0 }

/-- A rule-free record with total count 0. -/
def statZero : ColumnStat :=
  { column := "a", data_type := "text", is_nullable := true,
    is_numeric := false, min := none, max := none, avg := none,
    total_count := 0, null_count := some 1, distinct_count := 1 }

/-- A rule-free record with total count 10. -/
def statTen : ColumnStat :=
  { column := "b", data_type := "text", is_nullable := true,
    is_numeric := false, min := none, max := none, avg := none,
    total_count := 10, null_count := some 1, distinct_count := 3 }

/-- Twin of `statTen` with another name and the same total count. -/
def statTenB : ColumnStat :=
  { column := "d", data_type := "text", is_nullable := true,
    is_numeric := false, min := none, max := none, avg := none,
    total_count := 10, null_count := some 1, distinct_count := 4 }

/-- `statEmptyTable` with the declared-nullability flag flipped. -/
def statEmptyTableNullable : ColumnStat :=
  { statEmptyTable with is_nullable := true }

/-- A nullable-declared column with no observed nulls. -/
def statNullableNoNulls : ColumnStat :=
  { column := "w", data_type := "text", is_nullable := true,
    is_numeric := false, min := none, max := none, avg := none,
    total_count := 3, null_count := some 0, distinct_count := 2 }

/-! ## Basic lemmas about the rule parts -/

lemma mem_notNullPart {r : Rule} {s : ColumnStat} :
    r ∈ notNullPart s ↔ s.null_count = some 0 ∧ r = Rule.notNull s.column := by
  unfold notNullPart
  split <;> simp_all

lemma mem_uniquePart {r : Rule} {s : ColumnStat} :
    r ∈ uniquePart s ↔
      s.distinct_count = s.total_count ∧ 0 < s.total_count ∧
        looksLikeId s.column = true ∧ r = Rule.unique s.column := by
  unfold uniquePart
  split
  · split <;> simp_all
  · simp_all

lemma isRange_of_mem_rangePart {r : Rule} {s : ColumnStat}
    (h : r ∈ rangePart s) : isRangeRule r = true := by
  unfold rangePart at h
  split at h <;> simp_all [isRangeRule]

lemma isRowCount_of_mem_rowCountPart {r : Rule} {l : List ColumnStat}
    (h : r ∈ rowCountPart l) : isRowCountRule r = true := by
  unfold rowCountPart at h
  split at h
  · simp at h
  · split at h <;> simp_all [isRowCountRule]

lemma filter_isRange_notNullPart (s : ColumnStat) :
    (notNullPart s).filter isRangeRule = [] := by
  unfold notNullPart
  split <;> simp [isRangeRule]

lemma filter_isRange_uniquePart (s : ColumnStat) :
    (uniquePart s).filter isRangeRule = [] := by
  unfold uniquePart
  split
  · split <;> simp [isRangeRule]
  · rfl

lemma filter_isRange_rowCountPart (l : List ColumnStat) :
    (rowCountPart l).filter isRangeRule = [] := by
  unfold rowCountPart
  split
  · rfl
  · split <;> simp [isRangeRule]

lemma filter_isRange_rangePart_eq (s : ColumnStat) :
    (rangePart s).filter isRangeRule = rangePart s := by
  unfold rangePart
  split <;> simp [isRangeRule]

lemma filter_isRowCount_colRules (s : ColumnStat) :
    (colRules s).filter isRowCountRule = [] := by
  rw [List.filter_eq_nil_iff]
  intro r hr
  unfold colRules at hr
  rcases List.mem_append.mp hr with h | h
  · rcases List.mem_append.mp h with h | h
    · rw [mem_notNullPart] at h
      simp [h.2, isRowCountRule]
    · have := isRange_of_mem_rangePart h
      cases r <;> simp_all [isRangeRule, isRowCountRule]
  · rw [mem_uniquePart] at h
    simp [h.2.2.2, isRowCountRule]

/-- Restriction of the generated rules of a single record to its range
rules: only section 2 contributes. -/
lemma filter_isRange_generate_singleton (s : ColumnStat) :
    (generate_expectations_from_stats [s]).filter isRangeRule = rangePart s := by
  unfold generate_expectations_from_stats colRules
  simp only [List.flatMap_cons, List.flatMap_nil, List.append_nil, List.filter_append,
    filter_isRange_notNullPart, filter_isRange_uniquePart, filter_isRange_rowCountPart,
    filter_isRange_rangePart_eq, List.nil_append]

/-- Restriction of all generated rules to the row-count rules: only the
final table-level section contributes. -/
lemma filter_isRowCount_generate (stats : List ColumnStat) :
    (generate_expectations_from_stats stats).filter isRowCountRule =
      rowCountPart stats := by
  unfold generate_expectations_from_stats
  rw [List.filter_append]
  have h1 : (stats.flatMap colRules).filter isRowCountRule = [] := by
    rw [List.filter_eq_nil_iff]
    intro r hr
    rw [List.mem_flatMap] at hr
    obtain ⟨s, _, hrs⟩ := hr
    have := filter_isRowCount_colRules s
    rw [List.filter_eq_nil_iff] at this
    exact this r hrs
  have h2 : (rowCountPart stats).filter isRowCountRule = rowCountPart stats := by
    rw [List.filter_eq_self]
    intro r hr
    exact isRowCount_of_mem_rowCountPart hr
  rw [h1, h2, List.nil_append]

/-- Membership of a uniqueness rule among the rules generated for a single
record is exactly the section-3 condition. -/
lemma unique_mem_generate_singleton (s : ColumnStat) :
    Rule.unique s.column ∈ generate_expectations_from_stats [s] ↔
      s.distinct_count = s.total_count ∧ 0 < s.total_count ∧
        looksLikeId s.column = true := by
  unfold generate_expectations_from_stats colRules
  simp only [List.flatMap_cons, List.flatMap_nil, List.append_nil, List.mem_append]
  constructor
  · rintro (((h | h) | h) | h)
    · rw [mem_notNullPart] at h
      simp at h
    · have := isRange_of_mem_rangePart h
      simp [isRangeRule] at this
    · rw [mem_uniquePart] at h
      exact ⟨h.1, h.2.1, h.2.2.1⟩
    · have := isRowCount_of_mem_rowCountPart h
      simp [isRowCountRule] at this
  · intro h
    exact Or.inl (Or.inr (mem_uniquePart.mpr ⟨h.1, h.2.1, h.2.2, rfl⟩))

/-- Membership of a not-null rule among the rules generated for a single
record is exactly the section-1 condition. -/
lemma notNull_mem_generate_singleton (s : ColumnStat) :
    Rule.notNull s.column ∈ generate_expectations_from_stats [s] ↔
      s.null_count = some 0 := by
  unfold generate_expectations_from_stats colRules
  simp only [List.flatMap_cons, List.flatMap_nil, List.append_nil, List.mem_append]
  constructor
  · rintro (((h | h) | h) | h)
    · exact (mem_notNullPart.mp h).1
    · have := isRange_of_mem_rangePart h
      simp [isRangeRule] at this
    · rw [mem_uniquePart] at h
      simp at h
    · have := isRowCount_of_mem_rowCountPart h
      simp [isRowCountRule] at this
  · intro h
    exact Or.inl (Or.inl (Or.inl (mem_notNullPart.mpr ⟨h, rfl⟩)))

/-! ## String lemmas supporting the create-or-replace analysis -/

lemma isPrefixOf_append_self (l t : List Char) : l.isPrefixOf (l ++ t) = true := by
  induction l with
  | nil => simp [List.isPrefixOf]
  | cons c cs ih => simp [List.isPrefixOf, ih]

lemma charsContain_of_isPrefixOf {needle hay : List Char}
    (h : needle.isPrefixOf hay = true) : charsContain needle hay = true := by
  cases hay with
  | nil =>
    cases needle with
    | nil => rfl
    | cons c cs => simp [List.isPrefixOf] at h
  | cons c rest => simp [charsContain, h]

lemma charsContain_append_self (needle : List Char) :
    ∀ pre, charsContain needle (pre ++ needle) = true := by
  intro pre
  induction pre with
  | nil =>
    have := isPrefixOf_append_self needle []
    rw [List.append_nil] at this
    simpa using charsContain_of_isPrefixOf this
  | cons c cs ih => simp [charsContain, ih]

/-- The modelled duplicate-name message always passes the check
`"already exists" in str(e).lower()` of profile_data.py line 198. -/
lemma contains_suiteExistsMsg (name : String) :
    strContainsSub "already exists" (lowerStr (suiteExistsMsg name)) = true := by
  unfold strContainsSub lowerStr suiteExistsMsg
  show charsContain "already exists".data
    ((name.data ++ " already exists".data).map Char.toLower) = true
  rw [List.map_append]
  have h2 : (" already exists".data).map Char.toLower =
      [' '] ++ "already exists".data := by decide
  rw [h2, ← List.append_assoc]
  exact charsContain_append_self _ _

/-! ## Suite-store lemmas -/

lemma not_mem_storeNames_delete (st : SuiteStore) (name : String) :
    name ∉ storeNames (suitesDelete st name) := by
  unfold storeNames suitesDelete
  intro h
  rw [List.mem_map] at h
  obtain ⟨p, hp, hfst⟩ := h
  rw [List.mem_filter] at hp
  simp [hfst] at hp

lemma mem_delete_ne (st : SuiteStore) (name : String) :
    ∀ p ∈ suitesDelete st name, p.1 ≠ name := by
  intro p hp
  unfold suitesDelete at hp
  rw [List.mem_filter] at hp
  simpa using hp.2

lemma storeLookup_delete (st : SuiteStore) (name other : String)
    (h : other ≠ name) :
    storeLookup (suitesDelete st name) other = storeLookup st other := by
  unfold storeLookup suitesDelete
  induction st with
  | nil => rfl
  | cons p rest ih =>
    by_cases hp : p.1 = name
    · have hfilter : (p :: rest).filter (fun q => !(q.1 == name)) =
          rest.filter (fun q => !(q.1 == name)) := by
        simp [List.filter_cons, hp]
      rw [hfilter, ih]
      have : (p.1 == other) = false := by
        rw [hp]
        exact beq_false_of_ne (Ne.symm h)
      simp [List.find?_cons, this]
    · have hfilter : (p :: rest).filter (fun q => !(q.1 == name)) =
          p :: rest.filter (fun q => !(q.1 == name)) := by
        simp [List.filter_cons, beq_false_of_ne hp]
      rw [hfilter]
      by_cases ho : p.1 = other
      · simp [List.find?_cons, ho]
      · have hbeq : (p.1 == other) = false := beq_false_of_ne ho
        simp only [List.find?_cons, hbeq]
        exact ih

lemma storeSetRules_delete_append (st : SuiteStore) (name : String)
    (rules : List Rule) :
    storeSetRules (suitesDelete st name ++ [(name, [])]) name rules =
      suitesDelete st name ++ [(name, rules)] := by
  unfold storeSetRules
  rw [List.map_append]
  congr 1
  · have h : ∀ p ∈ suitesDelete st name,
        (if p.1 == name then (p.1, rules) else p) = p := by
      intro p hp
      simp [beq_false_of_ne (mem_delete_ne st name p hp)]
    rw [List.map_congr_left h]
    simp
  · simp

/-- When the display loop survives, on a name collision
`auto_profile_table` deletes the old suite and ends with the store
holding the freshly generated rules under that name. -/
lemma auto_profile_replace (st : SuiteStore) (name : String)
    (stats : List ColumnStat) (hdc : displayCrashes stats = false)
    (h : name ∈ storeNames st) :
    auto_profile_table st name stats =
      Except.ok (suitesDelete st name ++
        [(name, generate_expectations_from_stats stats)]) := by
  have hadd : suitesAdd st name = Except.error (suiteExistsMsg name) := by
    simp [suitesAdd, h]
  have hadd2 : suitesAdd (suitesDelete st name) name =
      Except.ok (suitesDelete st name ++ [(name, [])]) := by
    simp [suitesAdd, not_mem_storeNames_delete st name]
  unfold auto_profile_table createSuite createSuiteWith
  rw [hdc]
  simp only [Bool.false_eq_true, if_false]
  rw [hadd]
  simp only [contains_suiteExistsMsg, if_true]
  rw [hadd2]
  show Except.ok (storeSetRules (suitesDelete st name ++ [(name, [])]) name
      (generate_expectations_from_stats stats)) =
    Except.ok (suitesDelete st name ++
      [(name, generate_expectations_from_stats stats)])
  rw [storeSetRules_delete_append]

/-- When the display loop raises, `auto_profile_table` fails before the
suite-creation block, leaving the store untouched. -/
lemma auto_profile_display_crash (st : SuiteStore) (name : String)
    (stats : List ColumnStat) (hdc : displayCrashes stats = true) :
    auto_profile_table st name stats = Except.error noneFormatMsg := by
  unfold auto_profile_table
  rw [hdc]
  simp

lemma countName_replace (st : SuiteStore) (name : String) (rules : List Rule) :
    countName (suitesDelete st name ++ [(name, rules)]) name = 1 := by
  unfold countName
  rw [List.countP_append]
  have h0 : (suitesDelete st name).countP (fun p => p.1 == name) = 0 := by
    rw [List.countP_eq_zero]
    intro p hp
    simp [beq_false_of_ne (mem_delete_ne st name p hp)]
  rw [h0]
  simp [List.countP_cons]

lemma storeLookup_replace_self (st : SuiteStore) (name : String)
    (rules : List Rule) :
    storeLookup (suitesDelete st name ++ [(name, rules)]) name = some rules := by
  unfold storeLookup
  rw [List.find?_append]
  have h0 : (suitesDelete st name).find? (fun p => p.1 == name) = none := by
    rw [List.find?_eq_none]
    intro p hp
    simp [beq_false_of_ne (mem_delete_ne st name p hp)]
  rw [h0]
  simp

lemma storeLookup_replace_other (st : SuiteStore) (name other : String)
    (rules : List Rule) (h : other ≠ name) :
    storeLookup (suitesDelete st name ++ [(name, rules)]) other =
      storeLookup st other := by
  have h2 := storeLookup_delete st name other h
  unfold storeLookup at h2 ⊢
  rw [List.find?_append]
  have h1 : [(name, rules)].find? (fun p => p.1 == other) = none := by
    simp [List.find?_cons, beq_false_of_ne (Ne.symm h)]
  rw [h1]
  simpa [Option.or_none] using h2

/-! ## Validator counting lemmas -/

lemma counts_partition (results : List (Option Bool)) :
    countPassed results + countFailed results + countSkipped results =
      results.length := by
  unfold countPassed countFailed countSkipped
  induction results with
  | nil => rfl
  | cons s t ih =>
    cases s with
    | none => simp [List.countP_cons]; omega
    | some b => cases b <;> simp [List.countP_cons] <;> omega

lemma recordOutcome_failed_iff (o : Except String Bool) :
    ((recordOutcome o == some false) = true) ↔ o = Except.ok false := by
  cases o with
  | ok b => cases b <;> simp [recordOutcome]
  | error e => simp [recordOutcome]

lemma countFailed_map_record (outcomes : List (Except String Bool)) :
    0 < countFailed (outcomes.map recordOutcome) ↔
      Except.ok false ∈ outcomes := by
  unfold countFailed
  rw [List.countP_map, List.countP_pos_iff]
  constructor
  · rintro ⟨o, ho, hp⟩
    rw [Function.comp_apply, recordOutcome_failed_iff] at hp
    rwa [hp] at ho
  · intro h
    exact ⟨Except.ok false, h, by simp [recordOutcome]⟩

/-! ## Nullability-erasure and permutation lemmas -/

lemma colRules_setNullableFalse (s : ColumnStat) :
    colRules (setNullableFalse s) = colRules s := rfl

lemma rowCountPart_map_setNullableFalse (l : List ColumnStat) :
    rowCountPart (l.map setNullableFalse) = rowCountPart l := by
  cases l <;> rfl

lemma generate_map_setNullableFalse (l : List ColumnStat) :
    generate_expectations_from_stats (l.map setNullableFalse) =
      generate_expectations_from_stats l := by
  unfold generate_expectations_from_stats
  rw [rowCountPart_map_setNullableFalse]
  congr 1
  rw [List.flatMap_map]
  simp only [colRules_setNullableFalse]

lemma rowCountPart_congr {l₁ l₂ : List ColumnStat} (hp : l₁.Perm l₂)
    (hc : ∀ a ∈ l₁, ∀ b ∈ l₁, a.total_count = b.total_count) :
    rowCountPart l₁ = rowCountPart l₂ := by
  cases l₁ with
  | nil =>
    have : l₂ = [] := hp.symm.eq_nil
    rw [this]
  | cons a t =>
    cases l₂ with
    | nil => exact absurd hp.eq_nil (by simp)
    | cons b u =>
      have hb : b ∈ a :: t := hp.mem_iff.mpr (List.mem_cons_self b u)
      have hab : a.total_count = b.total_count :=
        hc a (List.mem_cons_self a t) b hb
      simp [rowCountPart, hab]

/-- The range rule of a record with numeric flag set and min/max present,
before resolving the degenerate-span conditional. -/
lemma rangePart_eq (stat : ColumnStat) (mn mx : ℚ)
    (hn : stat.is_numeric = true) (hmin : stat.min = some mn)
    (hmax : stat.max = some mx) :
    rangePart stat =
      [Rule.between stat.column
        (round4 (mn - (if mx ≠ mn then mx - mn else |mx| * (1/10)) * (1/10)))
        (round4 (mx + (if mx ≠ mn then mx - mn else |mx| * (1/10)) * (1/10)))] := by
  unfold rangePart
  simp only [hn, hmin, hmax]

/-- Evaluation of the generated rules of `stat100`: the range rule gets a
margin of 1 = 10% of the degenerate span 10 = 10% of |100|, and the
row-count band is [4, 6]. -/
lemma generate_stat100_eq :
    generate_expectations_from_stats [stat100] =
      [Rule.between "c" 99 101, Rule.rowCountBetween 4 6] := by
  have hr : rangePart stat100 = [Rule.between "c" 99 101] := by
    rw [rangePart_eq stat100 100 100 rfl rfl rfl]
    norm_num [round4, stat100]
  have hrow : rowCountPart [stat100] = [Rule.rowCountBetween 4 6] := by
    simp only [rowCountPart]
    rw [if_pos (by decide : stat100.total_count ≠ 0)]
    have e1 : pyint ((stat100.total_count : ℚ) * (8/10)) = 4 := by
      norm_num [pyint, stat100]
    have e2 : pyint ((stat100.total_count : ℚ) * (12/10)) = 6 := by
      norm_num [pyint, stat100]
    rw [e1, e2]
  unfold generate_expectations_from_stats colRules
  rw [hrow]
  simp only [List.flatMap_cons, List.flatMap_nil, List.append_nil]
  rw [hr]
  have hnn : notNullPart stat100 = [] := by decide
  have hu : uniquePart stat100 = [] := by decide
  rw [hnn, hu]
  rfl

/-! ## Claims -/

/-- C1. The claim asserts that for a numeric record with min = max = v ≠ 0
the emitted range rule has bounds v ± 0.1·|v|. The code computes the
degenerate span as 0.1·|v| and then takes 10% of it as the margin, so the
bounds are v ± 0.01·|v|: at v = 100 the claimed rule [90, 110] is not
emitted while [99, 101] is. -/
theorem C1_counterexample :
    Rule.between "c" 90 110 ∉ generate_expectations_from_stats [stat100] ∧
    Rule.between "c" 99 101 ∈ generate_expectations_from_stats [stat100] := by
  rw [generate_stat100_eq]
  constructor
  · intro h
    rcases List.mem_cons.mp h with h | h
    · have := Rule.between.injEq .. ▸ h
      simp only [Rule.between.injEq] at h
      have : (90 : ℚ) = 99 := h.2.1
      norm_num at this
    · simp at h
  · exact List.mem_cons_self _ _

/-- C1 (amended). For a numeric record with min = max = v and v ≠ 0 the
range rule emitted by generate_expectations_from_stats has bounds
round4(v − 0.01·|v|) and round4(v + 0.01·|v|): the margin is 10% of the
degenerate span 0.1·|v|, not 10% of |v|. -/
theorem C1_amended (stat : ColumnStat) (v : ℚ) (hn : stat.is_numeric = true)
    (hmin : stat.min = some v) (hmax : stat.max = some v) (hv : v ≠ 0) :
    (generate_expectations_from_stats [stat]).filter isRangeRule =
      [Rule.between stat.column (round4 (v - |v| / 100))
        (round4 (v + |v| / 100))] := by
  rw [filter_isRange_generate_singleton, rangePart_eq stat v v hn hmin hmax]
  rw [if_neg (by simp)]
  have h : |v| * (1/10) * (1/10) = |v| / 100 := by ring
  rw [h]

/-- Helper: 100 is a nonzero rational. -/
lemma q100_ne_zero : (100 : ℚ) ≠ 0 := by norm_num

/-- C1 (amended) witness at `stat100` (v = 100). -/
theorem C1_amended_witness :
    (generate_expectations_from_stats [stat100]).filter isRangeRule =
      [Rule.between "c" (round4 (100 - |(100 : ℚ)| / 100))
        (round4 (100 + |(100 : ℚ)| / 100))] :=
  C1_amended stat100 100 rfl rfl rfl q100_ne_zero

/-- C2. For a numeric record whose min is present, exactly one range rule
is emitted: with bounds round4(min ∓ 0.1·(max − min)) when min ≠ max, and
with span 0.1·|max| and margin 10% of that span when min = max. -/
theorem C2_range_bounds (stat : ColumnStat) (mn mx : ℚ)
    (hn : stat.is_numeric = true) (hmin : stat.min = some mn)
    (hmax : stat.max = some mx) :
    (mn ≠ mx →
      (generate_expectations_from_stats [stat]).filter isRangeRule =
        [Rule.between stat.column (round4 (mn - (mx - mn) * (1/10)))
          (round4 (mx + (mx - mn) * (1/10)))]) ∧
    (mn = mx →
      (generate_expectations_from_stats [stat]).filter isRangeRule =
        [Rule.between stat.column (round4 (mn - |mx| * (1/10) * (1/10)))
          (round4 (mx + |mx| * (1/10) * (1/10)))]) := by
  rw [filter_isRange_generate_singleton, rangePart_eq stat mn mx hn hmin hmax]
  constructor
  · intro hne
    rw [if_pos (Ne.symm hne)]
  · intro he
    rw [if_neg (by simp [he])]

/-- Helper: 1 and 100 are different rationals. -/
lemma q1_ne_q100 : (1 : ℚ) ≠ 100 := by norm_num

/-- C2 witness: both branches instantiated, at `statIPrice` (min 1 ≠
max 100) and at `stat100` (min = max = 100). -/
theorem C2_range_bounds_witness :
    ((generate_expectations_from_stats [statIPrice]).filter isRangeRule =
      [Rule.between "i_price" (round4 (1 - (100 - 1) * (1/10)))
        (round4 (100 + (100 - 1) * (1/10)))]) ∧
    ((generate_expectations_from_stats [stat100]).filter isRangeRule =
      [Rule.between "c" (round4 (100 - |(100 : ℚ)| * (1/10) * (1/10)))
        (round4 (100 + |(100 : ℚ)| * (1/10) * (1/10)))]) :=
  ⟨(C2_range_bounds statIPrice 1 100 rfl rfl rfl).1 q1_ne_q100,
   (C2_range_bounds stat100 100 100 rfl rfl rfl).2 rfl⟩

/-- C3. A uniqueness rule is emitted for a record exactly when its
distinct count equals a positive total count and its name passes the
"_id"-contained-or-ends-in-"id" heuristic; in particular "ol_amount"
with distinct = total > 0 gets no uniqueness rule. -/
theorem C3_uniqueness_iff :
    (∀ stat : ColumnStat,
       Rule.unique stat.column ∈ generate_expectations_from_stats [stat] ↔
         stat.distinct_count = stat.total_count ∧ 0 < stat.total_count ∧
           looksLikeId stat.column = true) ∧
    (∀ n : ℕ, 0 < n →
       Rule.unique "ol_amount" ∉
         generate_expectations_from_stats [statOlAmount n]) := by
  refine ⟨fun stat => unique_mem_generate_singleton stat, fun n hn h => ?_⟩
  have h2 := (unique_mem_generate_singleton (statOlAmount n)).mp h
  have h3 : looksLikeId "ol_amount" = true := h2.2.2
  exact absurd h3 (by decide)

/-- C3 witness: the heuristic admits "ol_o_id" and rejects "ol_amount". -/
theorem C3_uniqueness_iff_witness :
    (Rule.unique "ol_o_id" ∈ generate_expectations_from_stats [statOlId]) ∧
    (Rule.unique "ol_amount" ∉
      generate_expectations_from_stats [statOlAmount 1000]) :=
  ⟨(C3_uniqueness_iff.1 statOlId).mpr (by decide),
   C3_uniqueness_iff.2 1000 (by decide)⟩

/-- C4. A not-null rule is emitted for a record exactly when its observed
null count is (present and) exactly zero; in particular a record with a
positive null count, or with the NULL null count of an empty table, never
yields one. -/
theorem C4_notNull_iff (stat : ColumnStat) :
    Rule.notNull stat.column ∈ generate_expectations_from_stats [stat] ↔
      stat.null_count = some 0 :=
  notNull_mem_generate_singleton stat

/-- C5. For a non-empty statistics list whose first record has total
count N, the row-count rule has bounds exactly ⌊0.8·N⌋ and ⌊1.2·N⌋, and
no row-count rule is emitted when N = 0. -/
theorem C5_rowcount_bounds (s0 : ColumnStat) (rest : List ColumnStat) :
    (0 < s0.total_count →
      (generate_expectations_from_stats (s0 :: rest)).filter isRowCountRule =
        [Rule.rowCountBetween ⌊(0.8 : ℚ) * (s0.total_count : ℚ)⌋
          ⌊(1.2 : ℚ) * (s0.total_count : ℚ)⌋]) ∧
    (s0.total_count = 0 →
      (generate_expectations_from_stats (s0 :: rest)).filter isRowCountRule =
        []) := by
  constructor
  · intro h
    rw [filter_isRowCount_generate]
    simp only [rowCountPart]
    rw [if_pos (Nat.pos_iff_ne_zero.mp h)]
    have e1 : pyint ((s0.total_count : ℚ) * (8/10)) =
        ⌊(0.8 : ℚ) * (s0.total_count : ℚ)⌋ := by
      unfold pyint
      rw [if_pos (by positivity)]
      congr 1
      rw [mul_comm]
      norm_num
    have e2 : pyint ((s0.total_count : ℚ) * (12/10)) =
        ⌊(1.2 : ℚ) * (s0.total_count : ℚ)⌋ := by
      unfold pyint
      rw [if_pos (by positivity)]
      congr 1
      rw [mul_comm]
      norm_num
    rw [e1, e2]
  · intro h
    rw [filter_isRowCount_generate]
    simp only [rowCountPart]
    rw [if_neg (by simp [h])]

/-- C5 witness at a first record with total count 10. -/
theorem C5_rowcount_bounds_witness :
    (generate_expectations_from_stats [statTen]).filter isRowCountRule =
      [Rule.rowCountBetween ⌊(0.8 : ℚ) * (statTen.total_count : ℚ)⌋
        ⌊(1.2 : ℚ) * (statTen.total_count : ℚ)⌋] :=
  (C5_rowcount_bounds statTen []).1 (by decide)

/-- C6. Create-or-replace for suites. When the statistics-display loop
does not raise (no numeric record with a NULL min or max, the reachable
TypeError of profile_data.py line 186) and the name collides, the old
suite is deleted and an empty suite recreated before rules are added, so
after profiling the store holds the generated rules exactly once under
that name and every other name is untouched. A creation error whose
message does not contain "already exists" is re-raised by the creation
block. The per-table loop of main continues past a table whose profiling
fails. And when the display loop does raise, `auto_profile_table` errors
before the suite-creation block, leaving the store as it was. -/
theorem C6_create_or_replace :
    (∀ (st : SuiteStore) (name : String) (stats : List ColumnStat),
       displayCrashes stats = false →
       name ∈ storeNames st →
       ∃ st1, auto_profile_table st name stats = Except.ok st1 ∧
         countName st1 name = 1 ∧
         storeLookup st1 name = some (generate_expectations_from_stats stats) ∧
         ∀ other, other ≠ name → storeLookup st1 other = storeLookup st other) ∧
    (∀ (add : SuiteStore → String → Except String SuiteStore)
       (st : SuiteStore) (name e : String),
       add st name = Except.error e →
       strContainsSub "already exists" (lowerStr e) = false →
       createSuiteWith add st name = Except.error e) ∧
    (∀ (f : SuiteStore → String → List ColumnStat → Except String SuiteStore)
       (st : SuiteStore) (name : String) (stats : List ColumnStat)
       (rest : List (String × List ColumnStat)),
       (∃ e, f st name stats = Except.error e) →
       profileTablesWith f st ((name, stats) :: rest) =
         profileTablesWith f st rest) ∧
    (∀ (st : SuiteStore) (name : String) (stats : List ColumnStat),
       displayCrashes stats = true →
       auto_profile_table st name stats = Except.error noneFormatMsg) := by
  refine ⟨?_, ?_, ?_, ?_⟩
  · intro st name stats hdc h
    exact ⟨suitesDelete st name ++
        [(name, generate_expectations_from_stats stats)],
      auto_profile_replace st name stats hdc h,
      countName_replace st name _,
      storeLookup_replace_self st name _,
      fun other hne => storeLookup_replace_other st name other _ hne⟩
  · intro add st name e hadd hmsg
    unfold createSuiteWith
    rw [hadd]
    simp [hmsg]
  · intro f st name stats rest hfe
    obtain ⟨e, he⟩ := hfe
    simp only [profileTablesWith]
    rw [he]
  · intro st name stats hdc
    exact auto_profile_display_crash st name stats hdc

/-- C6 witness: replacement at a one-suite store holding the target name
(crash-free statistics), re-raising for an add primitive failing with an
unrelated message, loop continuation past an erroring per-table body, and
the display-loop crash at the zero-row numeric record, which leaves the
old suite untouched. -/
theorem C6_create_or_replace_witness :
    (∃ st1, auto_profile_table [("t", [Rule.notNull "x"])] "t" [statTen] =
        Except.ok st1 ∧
      countName st1 "t" = 1 ∧
      storeLookup st1 "t" = some (generate_expectations_from_stats [statTen]) ∧
      ∀ other, other ≠ "t" →
        storeLookup st1 other = storeLookup [("t", [Rule.notNull "x"])] other) ∧
    createSuiteWith (fun _ _ => Except.error "boom") [] "t" =
      Except.error "boom" ∧
    profileTablesWith (fun _ _ _ => Except.error "x") [] [("t", [])] =
      profileTablesWith (fun _ _ _ => Except.error "x") [] [] ∧
    auto_profile_table [("t", [Rule.notNull "x"])] "t" [statEmptyTable] =
      Except.error noneFormatMsg :=
  ⟨C6_create_or_replace.1 [("t", [Rule.notNull "x"])] "t" [statTen]
     (by decide) (by decide),
   C6_create_or_replace.2.1 (fun _ _ => Except.error "boom") [] "t" "boom"
     rfl (by decide),
   C6_create_or_replace.2.2.1 (fun _ _ _ => Except.error "x") [] "t" [] []
     ⟨"x", rfl⟩,
   C6_create_or_replace.2.2.2 [("t", [Rule.notNull "x"])] "t" [statEmptyTable]
     (by decide)⟩

/-- C7. The validator's exit code is 1 exactly when some triple's outcome
is a failure (a completed run with success = false); it is 0 exactly when
no triple failed, so passes and skips (the outcome recorded for any
exception) never trigger a non-zero exit; and the pass/fail/skip totals
partition the configured triples. -/
theorem C7_exit_code (outcomes : List (Except String Bool)) :
    (validatorExitCode (outcomes.map recordOutcome) = 1 ↔
       Except.ok false ∈ outcomes) ∧
    (validatorExitCode (outcomes.map recordOutcome) = 0 ↔
       Except.ok false ∉ outcomes) ∧
    countPassed (outcomes.map recordOutcome) +
        countFailed (outcomes.map recordOutcome) +
        countSkipped (outcomes.map recordOutcome) = outcomes.length := by
  have hiff := countFailed_map_record outcomes
  refine ⟨?_, ?_, ?_⟩
  · unfold validatorExitCode
    split_ifs with h
    · simp [hiff.mp h]
    · simp only [OfNat.zero_ne_ofNat, false_iff]
      intro hmem
      exact h (hiff.mpr hmem)
  · unfold validatorExitCode
    split_ifs with h
    · simp only [OfNat.ofNat_ne_zero, false_iff, not_not]
      exact hiff.mp h
    · simp only [true_iff]
      intro hmem
      exact h (hiff.mpr hmem)
  · rw [counts_partition, List.length_map]

/-- C8. On the statistics of a zero-row table — every aggregate NULL and
every total count 0 — rule generation is total by construction (it is a
Lean function) and emits no range rule for any column. -/
theorem C8_empty_table (stats : List ColumnStat)
    (h : ∀ s ∈ stats, s.min = none ∧ s.max = none ∧ s.avg = none ∧
        s.null_count = none ∧ s.total_count = 0) :
    (generate_expectations_from_stats stats).filter isRangeRule = [] := by
  have hgen : generate_expectations_from_stats stats = [] := by
    unfold generate_expectations_from_stats
    have h1 : stats.flatMap colRules = [] := by
      rw [List.flatMap_eq_nil_iff]
      intro s hs
      obtain ⟨hmin, hmax, havg, hnull, htot⟩ := h s hs
      unfold colRules notNullPart rangePart uniquePart
      rw [hmin]
      simp [hnull, htot]
    have h2 : rowCountPart stats = [] := by
      cases stats with
      | nil => rfl
      | cons s t =>
        have := (h s (List.mem_cons_self s t)).2.2.2.2
        simp [rowCountPart, this]
    rw [h1, h2]
    rfl
  rw [hgen]
  rfl

/-- C8 witness at a one-column zero-row table. -/
theorem C8_empty_table_witness :
    (generate_expectations_from_stats [statEmptyTable]).filter isRangeRule =
      [] :=
  C8_empty_table [statEmptyTable] (by decide)

/-- C9. The claim asserts rule generation is invariant (as a collection)
under any permutation of the statistics list; but the row-count rule reads
the first record's total count, so permuting a list whose records have
different total counts changes the outcome: with a zero-total record first
no row-count rule is emitted, with the ten-total record first one is. -/
theorem C9_counterexample :
    ([statZero, statTen].Perm [statTen, statZero]) ∧
    ¬ (generate_expectations_from_stats [statZero, statTen]).Perm
        (generate_expectations_from_stats [statTen, statZero]) := by
  constructor
  · exact List.Perm.swap statTen statZero []
  · intro hp
    have h1 : generate_expectations_from_stats [statZero, statTen] = [] := by
      decide
    have h2 : (generate_expectations_from_stats [statTen, statZero]).length
        = 1 := by
      simp [generate_expectations_from_stats, colRules, notNullPart,
        rangePart, uniquePart, rowCountPart, statTen, statZero]
    have hlen := hp.length_eq
    rw [h1, h2] at hlen
    simp at hlen

/-- C9 (amended). For statistics lists all of whose records carry the same
total count — as holds for the per-column records of one table, where
every total is the same COUNT(*) — rule generation commutes with
permutation: the outputs are permutations of each other (per-column rules
reordered, same row-count rule). -/
theorem C9_amended (l₁ l₂ : List ColumnStat) (hp : l₁.Perm l₂)
    (hc : ∀ a ∈ l₁, ∀ b ∈ l₁, a.total_count = b.total_count) :
    (generate_expectations_from_stats l₁).Perm
      (generate_expectations_from_stats l₂) := by
  unfold generate_expectations_from_stats
  refine (hp.flatMap_right colRules).append ?_
  rw [rowCountPart_congr hp hc]

/-- C9 (amended) witness: swapping two equal-total records. -/
theorem C9_amended_witness :
    (generate_expectations_from_stats [statTen, statTenB]).Perm
      (generate_expectations_from_stats [statTenB, statTen]) :=
  C9_amended [statTen, statTenB] [statTenB, statTen]
    (List.Perm.swap statTenB statTen []) (by decide)

/-- C10. The declared-nullability flag collected from the metadata catalog
never influences rule synthesis: two statistics lists equal after erasing
`is_nullable` generate identical rules; and a record declared nullable
with observed null count 0 still receives a not-null rule. -/
theorem C10_nullability_independent :
    (∀ l₁ l₂ : List ColumnStat,
       l₁.map setNullableFalse = l₂.map setNullableFalse →
       generate_expectations_from_stats l₁ =
         generate_expectations_from_stats l₂) ∧
    (∀ s : ColumnStat, s.is_nullable = true → s.null_count = some 0 →
       Rule.notNull s.column ∈ generate_expectations_from_stats [s]) := by
  constructor
  · intro l₁ l₂ h
    calc generate_expectations_from_stats l₁
        = generate_expectations_from_stats (l₁.map setNullableFalse) :=
          (generate_map_setNullableFalse l₁).symm
      _ = generate_expectations_from_stats (l₂.map setNullableFalse) := by
          rw [h]
      _ = generate_expectations_from_stats l₂ :=
          generate_map_setNullableFalse l₂
  · intro s _ h0
    exact (notNull_mem_generate_singleton s).mpr h0

/-- C10 witness: flipping the nullability flag of the empty-table record
leaves the rules unchanged, and a nullable column with zero observed
nulls gets its not-null rule. -/
theorem C10_nullability_independent_witness :
    generate_expectations_from_stats [statEmptyTableNullable] =
      generate_expectations_from_stats [statEmptyTable] ∧
    Rule.notNull "w" ∈ generate_expectations_from_stats [statNullableNoNulls] :=
  ⟨C10_nullability_independent.1 [statEmptyTableNullable] [statEmptyTable]
     (by decide),
   C10_nullability_independent.2 statNullableNoNulls rfl rfl⟩

end GxPoc
